import Mathlib

/-!
Shallow embedding of the Nuclear-Launch-Simulator core: the session data
model (src/types/session.ts), the simulator step handlers
(src/components/Simulator.tsx) and the lobby session creation and join
logic (SessionLobby). Timestamps are logical Nat clocks, user ids are
strings, and the Supabase store is modelled as explicit record state.
Each UI handler is embedded as a pure state transformer executed
sequentially (client cached view equals store state, the setting the
claims about sequential execution use).
-/

namespace NLS

/-- Roles of a session participant, as in src/types/session.ts. -/
inductive SessionRole
  | operator_a
  | operator_b
  | observer
  | instructor
deriving DecidableEq, Repr

/-- Session lifecycle status, as in src/types/session.ts. -/
inductive SessionStatus
  | waiting
  | active
  | paused
  | completed
deriving DecidableEq, Repr

/-- Status enum of a KeyAuthorization row ('pending' | 'partial' | 'complete').
The middle constructor is spelled partialAuth because its source name is a
Lean keyword. -/
inductive KeyAuthStatus
  | pending
  | partialAuth
  | complete
deriving DecidableEq, Repr

/-- Numeric rank of a KeyAuthStatus, for stating that the derived status
sequence never regresses. -/
def KeyAuthStatus.rank : KeyAuthStatus → Nat
  | .pending => 0
  | .partialAuth => 1
  | .complete => 2

/-- One subsystem entry of SystemState.subsystems. -/
structure SubsystemInfo where
  status : String
  value : String
deriving DecidableEq, Repr

/-- The SystemState blob embedded in a session (src/types/session.ts). -/
@[ext]
structure SystemState where
  initialized : Bool
  diagnosticsPassed : Bool
  authenticated : Bool
  armed : Bool
  countdownActive : Bool
  countdownAbortable : Bool
  countdownSeconds : Nat
  systemLocked : Bool
  lockType : Option String
  systemHold : Bool
  faultInjected : Bool
  adminForcedOutcome : Option String
  activeScenario : Option String
  subsystems : List (String × SubsystemInfo)
  delayMultiplier : Nat
  latencyEnabled : Bool
deriving DecidableEq, Repr

/-- A partial SystemState, modelling the TypeScript
Partial TrainingSession system_state argument of updateSessionState:
a field that is none is absent from the update object. -/
structure SystemStateUpdate where
  initialized : Option Bool := none
  diagnosticsPassed : Option Bool := none
  authenticated : Option Bool := none
  armed : Option Bool := none
  countdownActive : Option Bool := none
  countdownAbortable : Option Bool := none
  countdownSeconds : Option Nat := none
  systemLocked : Option Bool := none
  lockType : Option (Option String) := none
  systemHold : Option Bool := none
  faultInjected : Option Bool := none
  adminForcedOutcome : Option (Option String) := none
  activeScenario : Option (Option String) := none
  subsystems : Option (List (String × SubsystemInfo)) := none
  delayMultiplier : Option Nat := none
  latencyEnabled : Option Bool := none
deriving DecidableEq, Repr

/-- The spread merge written by updateSessionState in Simulator.tsx:
newState = spread of the client last-read system_state overridden by the
fields present in the update object. -/
def applySSUpdate (view : SystemState) (u : SystemStateUpdate) : SystemState where
  initialized := u.initialized.getD view.initialized
  diagnosticsPassed := u.diagnosticsPassed.getD view.diagnosticsPassed
  authenticated := u.authenticated.getD view.authenticated
  armed := u.armed.getD view.armed
  countdownActive := u.countdownActive.getD view.countdownActive
  countdownAbortable := u.countdownAbortable.getD view.countdownAbortable
  countdownSeconds := u.countdownSeconds.getD view.countdownSeconds
  systemLocked := u.systemLocked.getD view.systemLocked
  lockType := u.lockType.getD view.lockType
  systemHold := u.systemHold.getD view.systemHold
  faultInjected := u.faultInjected.getD view.faultInjected
  adminForcedOutcome := u.adminForcedOutcome.getD view.adminForcedOutcome
  activeScenario := u.activeScenario.getD view.activeScenario
  subsystems := u.subsystems.getD view.subsystems
  delayMultiplier := u.delayMultiplier.getD view.delayMultiplier
  latencyEnabled := u.latencyEnabled.getD view.latencyEnabled

/-- The initial system_state object inserted by createSession in the lobby. -/
def initialSystemState : SystemState where
  initialized := false
  diagnosticsPassed := false
  authenticated := false
  armed := false
  countdownActive := false
  countdownAbortable := true
  countdownSeconds := 60
  systemLocked := false
  lockType := none
  systemHold := false
  faultInjected := false
  adminForcedOutcome := none
  activeScenario := none
  subsystems := []
  delayMultiplier := 1
  latencyEnabled := true

/-- A training_sessions row (src/types/session.ts TrainingSession). -/
@[ext]
structure Session where
  id : Nat
  session_code : String
  created_by : String
  status : SessionStatus
  run_id : String
  current_step : Nat
  system_state : SystemState
deriving DecidableEq, Repr

/-- A session_participants row. -/
structure Participant where
  id : Nat
  session_id : Nat
  user_id : String
  role : SessionRole
deriving DecidableEq, Repr

/-- Structured payload of a session_events row, covering the payload shapes
the source actually writes. -/
inductive EventPayload
  | stepData (step : Nat)
  | passedData (passed : Bool) (step : Nat)
  | roleData (role : SessionRole)
  | emptyData
deriving DecidableEq, Repr

/-- A session_events row. -/
structure SessionEvent where
  session_id : Nat
  user_id : Option String
  event_type : String
  event_data : EventPayload
deriving DecidableEq, Repr

/-- A key_authorizations row (src/types/session.ts KeyAuthorization).
Timestamps are logical clocks; none models SQL null. -/
structure KeyAuthorization where
  id : Nat
  session_id : Nat
  operator_a_key : Option String
  operator_b_key : Option String
  command_key : Option String
  operator_a_auth_at : Option Nat
  operator_b_auth_at : Option Nat
  command_auth_at : Option Nat
  status : KeyAuthStatus
  created_at : Nat
deriving DecidableEq, Repr

/-! ## Simulator state machine (src/components/Simulator.tsx)

One session with its single live key_authorizations row (in the sequential
model a row is inserted only when none exists, so at most one row is live)
and its append-only event log. -/

/-- The store state the Simulator component handlers act on. -/
structure SimState where
  session : Session
  keyAuth : Option KeyAuthorization
  events : List SessionEvent
  nextId : Nat
deriving DecidableEq, Repr

/-- logEvent in Simulator.tsx: append one session_events row. -/
def logEvent (uid : String) (ty : String) (payload : EventPayload) (s : SimState) : SimState :=
  { s with events := s.events ++ [⟨s.session.id, some uid, ty, payload⟩] }

/-- updateSessionState in Simulator.tsx, executed sequentially: the client
last-read system_state is the current store value; the whole merged record
is written back. -/
def updateSessionState (u : SystemStateUpdate) (s : SimState) : SimState :=
  { s with session := { s.session with system_state := applySSUpdate s.session.system_state u } }

/-- handleInitialize: merge initialized=true into system_state, log a
system_initialized event, then write current_step=1 and status=active. -/
def handleInitialize (uid : String) (s : SimState) : SimState :=
  let s1 := updateSessionState { initialized := some true } s
  let s2 := logEvent uid "system_initialized" (.stepData 1) s1
  { s2 with session := { s2.session with current_step := 1, status := .active } }

/-- handleDiagnostics with the random draw made explicit: passed is the
outcome of the configured success probability. Logs start, writes
diagnosticsPassed=passed, logs completion, and only on success writes
current_step=2. -/
def handleDiagnostics (uid : String) (passed : Bool) (s : SimState) : SimState :=
  let s1 := logEvent uid "diagnostics_started" (.stepData 2) s
  let s2 := updateSessionState { diagnosticsPassed := some passed } s1
  let s3 := logEvent uid "diagnostics_completed" (.passedData passed 2) s2
  if passed then { s3 with session := { s3.session with current_step := 2 } } else s3

/-- The key-write phase of handleKeySubmit (lines 144 to 185): if the caller
is an operator and their typed key has length 8, upsert the single
key_authorizations row setting only that operator key and auth timestamp
(insert with DB default status pending when no row exists), then log the
operator authenticated event. Otherwise no write happens. -/
def submitKeyWrite (uid : String) (role : SessionRole) (key : String) (now : Nat)
    (s : SimState) : SimState :=
  if role = .operator_a ∧ key.length = 8 then
    match s.keyAuth with
    | some r =>
      logEvent uid "operator_a_authenticated" (.stepData 3)
        { s with keyAuth := some { r with
            operator_a_key := some key, operator_a_auth_at := some now } }
    | none =>
      logEvent uid "operator_a_authenticated" (.stepData 3)
        { s with
          keyAuth := some
            { id := s.nextId, session_id := s.session.id,
              operator_a_key := some key, operator_b_key := none, command_key := none,
              operator_a_auth_at := some now, operator_b_auth_at := none,
              command_auth_at := none, status := .pending, created_at := now },
          nextId := s.nextId + 1 }
  else if role = .operator_b ∧ key.length = 8 then
    match s.keyAuth with
    | some r =>
      logEvent uid "operator_b_authenticated" (.stepData 3)
        { s with keyAuth := some { r with
            operator_b_key := some key, operator_b_auth_at := some now } }
    | none =>
      logEvent uid "operator_b_authenticated" (.stepData 3)
        { s with
          keyAuth := some
            { id := s.nextId, session_id := s.session.id,
              operator_a_key := none, operator_b_key := some key, command_key := none,
              operator_a_auth_at := none, operator_b_auth_at := some now,
              command_auth_at := none, status := .pending, created_at := now },
          nextId := s.nextId + 1 }
  else s

/-- The deferred completion check of handleKeySubmit (lines 188 to 209):
re-read the latest key_authorizations row; when both operator timestamps are
present, merge authenticated=true into system_state, mark the row status
complete, write current_step=3 and log dual_key_authentication_complete. -/
def completionCheck (uid : String) (s : SimState) : SimState :=
  match s.keyAuth with
  | some r =>
    if r.operator_a_auth_at.isSome ∧ r.operator_b_auth_at.isSome then
      let s1 := updateSessionState { authenticated := some true } s
      let s2 := { s1 with keyAuth := some { r with status := .complete } }
      let s3 := { s2 with session := { s2.session with current_step := 3 } }
      logEvent uid "dual_key_authentication_complete" (.stepData 3) s3
    else s
  | none => s

/-- handleKeySubmit: the key-write phase followed by the completion check,
which runs after every key-submission action regardless of whether a key
was written. -/
def handleKeySubmit (uid : String) (role : SessionRole) (key : String) (now : Nat)
    (s : SimState) : SimState :=
  completionCheck uid (submitKeyWrite uid role key now s)

/-- The SimState of a freshly created session, as inserted by createSession
in the lobby: current_step 0, status waiting, the initial system_state, no
key authorization row and an empty event log. -/
def initialSimState (sid : Nat) (code creator runId : String) (n0 : Nat) : SimState where
  session :=
    { id := sid, session_code := code, created_by := creator, status := .waiting,
      run_id := runId, current_step := 0, system_state := initialSystemState }
  keyAuth := none
  events := []
  nextId := n0

/-! ## Lobby: session creation and join (SessionLobby component) -/

/-- The multi-session store the lobby acts on. -/
structure Store where
  sessions : List Session
  participants : List Participant
  events : List SessionEvent
  nextParticipantId : Nat
deriving DecidableEq, Repr

/-- The only error path of joinSession that reaches the user before any
write: the session code resolves to no session. -/
inductive JoinError
  | SessionNotFound
deriving DecidableEq, Repr

/-- code.toUpperCase(), modelled character-wise (String.toUpper of core Lean
computed per character, which is what JavaScript toUpperCase does on the
ASCII session codes). -/
def toUpperCase (s : String) : String := ⟨s.data.map Char.toUpper⟩

/-- createSession: insert a training_sessions row (status waiting, step 0,
the initial system_state, code produced by the generate_session_code DB
function and runId generated client side, both passed in here) and insert
the creator as a participant with role instructor. -/
def createSession (uid code runId : String) (sid : Nat) (st : Store) : Store :=
  let session : Session :=
    { id := sid, session_code := code, created_by := uid, status := .waiting,
      run_id := runId, current_step := 0, system_state := initialSystemState }
  { st with
    sessions := st.sessions ++ [session],
    participants := st.participants ++
      [⟨st.nextParticipantId, sid, uid, .instructor⟩],
    nextParticipantId := st.nextParticipantId + 1 }

/-- The role computation of joinSession: observer unless operator_a or, next,
operator_b is unoccupied among the existing participants of the session. -/
def assignRole (existingRoles : List SessionRole) : SessionRole :=
  if ¬ existingRoles.contains .operator_a then .operator_a
  else if ¬ existingRoles.contains .operator_b then .operator_b
  else .observer

/-- joinSession: look the session up by code.toUpperCase; on miss fail with
SessionNotFound and write nothing. If the user already has a participant row
for the session, return its id without writing. Otherwise compute the role
from the existing participants of the session, insert the participant row
and append a participant_joined event carrying the role. Returns the store
after the operation together with the result. -/
def joinSession (uid code : String) (st : Store) : Store × Except JoinError Nat :=
  match st.sessions.find? (fun s => s.session_code == toUpperCase code) with
  | none => (st, .error .SessionNotFound)
  | some session =>
    match st.participants.find?
        (fun p => p.session_id == session.id && p.user_id == uid) with
    | some _ => (st, .ok session.id)
    | none =>
      let existingRoles :=
        (st.participants.filter (fun p => p.session_id == session.id)).map (·.role)
      let role := assignRole existingRoles
      let newRow : Participant := ⟨st.nextParticipantId, session.id, uid, role⟩
      let st1 := { st with
        participants := st.participants ++ [newRow],
        nextParticipantId := st.nextParticipantId + 1 }
      let joinEvent : SessionEvent :=
        ⟨session.id, some uid, "participant_joined", .roleData role⟩
      let st2 := { st1 with events := st1.events ++ [joinEvent] }
      (st2, .ok session.id)

/-- Count of participant rows a user holds in one session. -/
def participantRowCount (st : Store) (sid : Nat) (uid : String) : Nat :=
  (st.participants.filter (fun p => p.session_id == sid && p.user_id == uid)).length

/-- The role assignment as the specification words it, stated over the
participant table directly: operator_a if no participant of the session
holds that role, else operator_b if no participant holds it, else observer.
Compared against the computation embedded from the source in the role
assignment theorem. -/
def specAssignedRole (st : Store) (sid : Nat) : SessionRole :=
  if ¬ st.participants.any (fun p => p.session_id == sid && p.role == .operator_a) then
    .operator_a
  else if ¬ st.participants.any (fun p => p.session_id == sid && p.role == .operator_b) then
    .operator_b
  else .observer

/-! ## Step relations over the Simulator handlers -/

/-- One Simulator handler execution with no gating at all: any handler may
fire from any state (the handlers themselves check nothing beyond having a
session and a role). -/
inductive SimStep : SimState → SimState → Prop
  | init (uid : String) (s : SimState) : SimStep s (handleInitialize uid s)
  | diag (uid : String) (passed : Bool) (s : SimState) :
      SimStep s (handleDiagnostics uid passed s)
  | key (uid : String) (role : SessionRole) (key : String) (now : Nat) (s : SimState) :
      SimStep s (handleKeySubmit uid role key now s)

/-- States reachable from a freshly created session by any sequence of
handler executions in any order. -/
inductive SimReachable : SimState → Prop
  | start (sid : Nat) (code creator runId : String) (n0 : Nat) :
      SimReachable (initialSimState sid code creator runId n0)
  | step {s s' : SimState} : SimReachable s → SimStep s s' → SimReachable s'

/-- One Simulator handler execution under the UI enablement conditions of
Simulator.tsx: the INITIALIZE button renders only while initialized is
false, RUN DIAGNOSTICS only while initialized is true and diagnosticsPassed
is false, and the key inputs only while diagnosticsPassed is true. -/
inductive GatedStep : SimState → SimState → Prop
  | init (uid : String) (s : SimState) :
      s.session.system_state.initialized = false →
      GatedStep s (handleInitialize uid s)
  | diag (uid : String) (passed : Bool) (s : SimState) :
      s.session.system_state.initialized = true →
      s.session.system_state.diagnosticsPassed = false →
      GatedStep s (handleDiagnostics uid passed s)
  | key (uid : String) (role : SessionRole) (key : String) (now : Nat) (s : SimState) :
      s.session.system_state.diagnosticsPassed = true →
      GatedStep s (handleKeySubmit uid role key now s)

/-- States reachable from a freshly created session under the UI gating. -/
inductive GatedReachable : SimState → Prop
  | start (sid : Nat) (code creator runId : String) (n0 : Nat) :
      GatedReachable (initialSimState sid code creator runId n0)
  | step {s s' : SimState} : GatedReachable s → GatedStep s s' → GatedReachable s'

/-- Inductive invariant of the gated system: before initialization the step
counter is still 0 and diagnostics have not passed; before diagnostics pass
the step counter is at most 1 and no key authorization row exists; the step
counter never exceeds 3. -/
def StepInv (s : SimState) : Prop :=
  (s.session.system_state.initialized = false →
    s.session.current_step = 0 ∧ s.session.system_state.diagnosticsPassed = false)
  ∧ (s.session.system_state.diagnosticsPassed = false →
      s.session.current_step ≤ 1 ∧ s.keyAuth = none)
  ∧ s.session.current_step ≤ 3

/-- Invariant of the key authorization row: status is complete exactly when
both operator auth timestamps are present. -/
def KeyAuthInv (s : SimState) : Prop :=
  ∀ r, s.keyAuth = some r →
    (r.status = .complete ↔
      r.operator_a_auth_at.isSome = true ∧ r.operator_b_auth_at.isSome = true)

/-! ## Concrete states used to instantiate the theorems -/

/-- A fresh session state used as concrete input. -/
def wInit : SimState := initialSimState 1 "AB12-CD34" "creator" "RUN-1" 0

/-- wInit after operator A submits an 8-character key at time 5. -/
def wAfterA : SimState := handleKeySubmit "ua" .operator_a "AAAAAAAA" 5 wInit

/-- wAfterA after operator B submits an 8-character key at time 6. -/
def wAfterAB : SimState := handleKeySubmit "ub" .operator_b "BBBBBBBB" 6 wAfterA

/-- The key authorization row of wAfterA. -/
def recA : KeyAuthorization :=
  { id := 0, session_id := 1, operator_a_key := some "AAAAAAAA",
    operator_b_key := none, command_key := none, operator_a_auth_at := some 5,
    operator_b_auth_at := none, command_auth_at := none, status := .pending,
    created_at := 5 }

/-- The key authorization row after operator B submits on wAfterA, before the
completion check marks it complete. -/
def recAB : KeyAuthorization :=
  { recA with operator_b_key := some "BBBBBBBB", operator_b_auth_at := some 6 }

/-- The empty store. -/
def store0 : Store :=
  { sessions := [], participants := [], events := [], nextParticipantId := 0 }

/-- A store holding one session with code AB12-CD34 created by the user
creator, who therefore holds the instructor role. -/
def store1 : Store := createSession "creator" "AB12-CD34" "RUN-1" 1 store0

/-- The single session row of store1. -/
def wSession1 : Session :=
  { id := 1, session_code := "AB12-CD34", created_by := "creator", status := .waiting,
    run_id := "RUN-1", current_step := 0, system_state := initialSystemState }

/-- store1 after the user alice joins once (receiving operator_a). -/
def store2 : Store := (joinSession "alice" "ab12-cd34" store1).1

/-! ## Theorems -/

/-- If a predicate finds nothing in the first list, searching the
concatenation searches the second list. -/
theorem find?_append_none {α : Type} {l₁ : List α} (l₂ : List α) {p : α → Bool}
    (h : l₁.find? p = none) : (l₁ ++ l₂).find? p = l₂.find? p := by
  rw [List.find?_append, h, Option.none_or]

/-- Membership in the mapped roles of the filtered participant table is the
same test as the one the specification words use. -/
theorem contains_filter_map_role (l : List Participant) (sid : Nat) (a : SessionRole) :
    ((l.filter (fun p => p.session_id == sid)).map (fun p => p.role)).contains a
      = l.any (fun p => p.session_id == sid && p.role == a) := by
  rw [Bool.eq_iff_iff]
  simp only [List.contains_eq_any_beq, List.any_eq_true, List.mem_map, List.mem_filter,
    Bool.and_eq_true, beq_iff_eq]
  constructor
  · rintro ⟨r, ⟨p, ⟨hp, hsid⟩, hrole⟩, har⟩
    exact ⟨p, hp, hsid, by rw [hrole, ← har]⟩
  · rintro ⟨p, hp, hsid, hrole⟩
    exact ⟨p.role, ⟨p, ⟨hp, hsid⟩, rfl⟩, hrole.symm⟩

/-- The role computed by joinSession from the filtered participant table
equals the role assignment as the specification words it. -/
theorem assignRole_filter_eq_spec (st : Store) (sid : Nat) :
    assignRole ((st.participants.filter (fun p => p.session_id == sid)).map
      (fun p => p.role)) = specAssignedRole st sid := by
  unfold assignRole specAssignedRole
  rw [contains_filter_map_role, contains_filter_map_role]

/-- C10: updateSessionState writes the whole-record merge of the client
last-read system_state with only the named fields replaced; every field
absent from the update object keeps the value the client last read, so
under sequential execution all other system_state fields are unchanged by
the operation. -/
theorem nls_c10_update_session_state_frame (s : SimState) (u : SystemStateUpdate) :
    (updateSessionState u s).session.system_state = applySSUpdate s.session.system_state u
    ∧ (u.initialized = none →
        (updateSessionState u s).session.system_state.initialized
          = s.session.system_state.initialized)
    ∧ (u.diagnosticsPassed = none →
        (updateSessionState u s).session.system_state.diagnosticsPassed
          = s.session.system_state.diagnosticsPassed)
    ∧ (u.authenticated = none →
        (updateSessionState u s).session.system_state.authenticated
          = s.session.system_state.authenticated)
    ∧ (u.armed = none →
        (updateSessionState u s).session.system_state.armed
          = s.session.system_state.armed)
    ∧ (u.countdownActive = none →
        (updateSessionState u s).session.system_state.countdownActive
          = s.session.system_state.countdownActive)
    ∧ (u.countdownAbortable = none →
        (updateSessionState u s).session.system_state.countdownAbortable
          = s.session.system_state.countdownAbortable)
    ∧ (u.countdownSeconds = none →
        (updateSessionState u s).session.system_state.countdownSeconds
          = s.session.system_state.countdownSeconds)
    ∧ (u.systemLocked = none →
        (updateSessionState u s).session.system_state.systemLocked
          = s.session.system_state.systemLocked)
    ∧ (u.lockType = none →
        (updateSessionState u s).session.system_state.lockType
          = s.session.system_state.lockType)
    ∧ (u.systemHold = none →
        (updateSessionState u s).session.system_state.systemHold
          = s.session.system_state.systemHold)
    ∧ (u.faultInjected = none →
        (updateSessionState u s).session.system_state.faultInjected
          = s.session.system_state.faultInjected)
    ∧ (u.adminForcedOutcome = none →
        (updateSessionState u s).session.system_state.adminForcedOutcome
          = s.session.system_state.adminForcedOutcome)
    ∧ (u.activeScenario = none →
        (updateSessionState u s).session.system_state.activeScenario
          = s.session.system_state.activeScenario)
    ∧ (u.subsystems = none →
        (updateSessionState u s).session.system_state.subsystems
          = s.session.system_state.subsystems)
    ∧ (u.delayMultiplier = none →
        (updateSessionState u s).session.system_state.delayMultiplier
          = s.session.system_state.delayMultiplier)
    ∧ (u.latencyEnabled = none →
        (updateSessionState u s).session.system_state.latencyEnabled
          = s.session.system_state.latencyEnabled) := by
  refine ⟨rfl, ?_, ?_, ?_, ?_, ?_, ?_, ?_, ?_, ?_, ?_, ?_, ?_, ?_, ?_, ?_, ?_⟩ <;>
    intro h <;> simp [updateSessionState, applySSUpdate, h]

/-- C10 witness: with an update object naming only initialized, the field
diagnosticsPassed of a concrete fresh session keeps the value the client
last read. -/
theorem nls_c10_witness :
    (updateSessionState { initialized := some true } wInit).session.system_state.diagnosticsPassed
      = wInit.session.system_state.diagnosticsPassed :=
  (nls_c10_update_session_state_frame wInit { initialized := some true }).2.2.1 rfl

/-- C7: with the draw forced to success the diagnostics action sets
diagnosticsPassed to true and writes current_step 2; with the draw forced to
failure, from a state where diagnostics have not passed, the session record
is left completely unchanged, so the action stays enabled and repeatable. -/
theorem nls_c7_diagnostics (uid : String) (s : SimState) :
    ((handleDiagnostics uid true s).session.system_state.diagnosticsPassed = true
      ∧ (handleDiagnostics uid true s).session.current_step = 2)
    ∧ (s.session.system_state.diagnosticsPassed = false →
        (handleDiagnostics uid false s).session = s.session) := by
  refine ⟨⟨?_, ?_⟩, ?_⟩
  · simp [handleDiagnostics, updateSessionState, logEvent, applySSUpdate]
  · simp [handleDiagnostics, updateSessionState, logEvent]
  · intro h
    simp only [handleDiagnostics, logEvent, updateSessionState, Bool.false_eq_true,
      if_false]
    ext <;> simp [applySSUpdate, h]

/-- C7 witness: a fresh session has diagnosticsPassed false, and a failing
diagnostics run on it leaves the session record unchanged. -/
theorem nls_c7_witness :
    (handleDiagnostics "creator" false wInit).session = wInit.session :=
  (nls_c7_diagnostics "creator" wInit).2 rfl

/-- C8: a key submission by operator A writes only operator_a_key and
operator_a_auth_at on the existing KeyAuthorization row, leaving every other
field of the row as it was, and symmetrically for operator B; since no
hypothesis constrains the previous timestamps, re-submitting before
completion simply overwrites that operator own key value and refreshes the
timestamp. -/
theorem nls_c8_key_write_frame (uid key : String) (now : Nat) (s : SimState)
    (r : KeyAuthorization) (hr : s.keyAuth = some r) (hk : key.length = 8) :
    (submitKeyWrite uid .operator_a key now s).keyAuth
      = some { r with operator_a_key := some key, operator_a_auth_at := some now }
    ∧ (submitKeyWrite uid .operator_b key now s).keyAuth
      = some { r with operator_b_key := some key, operator_b_auth_at := some now } := by
  constructor <;> simp [submitKeyWrite, logEvent, hr, hk]

/-- C8 witness: operator A re-submitting a new key on a row where A already
authenticated at time 5 overwrites only the A fields, and an operator B
submission on the same row writes only the B fields. -/
theorem nls_c8_witness :
    (submitKeyWrite "ua" .operator_a "ZZZZZZZZ" 9 wAfterA).keyAuth
      = some { recA with operator_a_key := some "ZZZZZZZZ", operator_a_auth_at := some 9 }
    ∧ (submitKeyWrite "ua" .operator_b "ZZZZZZZZ" 9 wAfterA).keyAuth
      = some { recA with operator_b_key := some "ZZZZZZZZ", operator_b_auth_at := some 9 } :=
  nls_c8_key_write_frame "ua" "ZZZZZZZZ" 9 wAfterA recA rfl rfl

/-- C4: role assignment on join is deterministic given the participant
table: a joiner who is not yet a participant is inserted with operator_a if
no participant of the session holds that role, else operator_b if none
holds it, else observer (stated through specAssignedRole, the assignment as
the specification words it); and the session creator is inserted with role
instructor at session creation, bypassing this algorithm. -/
theorem nls_c4_role_assignment :
    (∀ (st : Store) (uid code : String) (s : Session),
      st.sessions.find? (fun x => x.session_code == toUpperCase code) = some s →
      st.participants.find? (fun p => p.session_id == s.id && p.user_id == uid) = none →
      (joinSession uid code st).1.participants
        = st.participants ++ [⟨st.nextParticipantId, s.id, uid, specAssignedRole st s.id⟩]
      ∧ (joinSession uid code st).2 = .ok s.id)
    ∧ (∀ (uid code runId : String) (sid : Nat) (st : Store),
        (createSession uid code runId sid st).participants
          = st.participants ++ [⟨st.nextParticipantId, sid, uid, .instructor⟩]) := by
  constructor
  · intro st uid code s hs hp
    constructor <;> simp [joinSession, hs, hp, assignRole_filter_eq_spec]
  · intro uid code runId sid st
    rfl

/-- C4 witness: on a concrete store whose only participant is the
instructor, the first joiner alice is inserted with the role the
specification assignment computes (operator_a), and session creation
inserted the creator as instructor. -/
theorem nls_c4_witness :
    ((joinSession "alice" "ab12-cd34" store1).1.participants
      = store1.participants
        ++ [⟨store1.nextParticipantId, 1, "alice", specAssignedRole store1 1⟩]
    ∧ (joinSession "alice" "ab12-cd34" store1).2 = .ok 1)
    ∧ (createSession "creator" "AB12-CD34" "RUN-1" 1 store0).participants
      = store0.participants ++ [⟨store0.nextParticipantId, 1, "creator", .instructor⟩] :=
  ⟨nls_c4_role_assignment.1 store1 "alice" "ab12-cd34" wSession1 rfl rfl,
   nls_c4_role_assignment.2 "creator" "AB12-CD34" "RUN-1" 1 store0⟩

/-- C5: join is idempotent: starting with no participant row for the user
in the resolved session, one join writes exactly one row for that user and
session, and a second join with the same user id returns the same session
id and leaves the whole store unchanged, so exactly one row remains. -/
theorem nls_c5_idempotent_join :
    ∀ (st : Store) (uid code : String) (s : Session),
      st.sessions.find? (fun x => x.session_code == toUpperCase code) = some s →
      participantRowCount st s.id uid = 0 →
      participantRowCount (joinSession uid code st).1 s.id uid = 1
      ∧ joinSession uid code (joinSession uid code st).1
          = ((joinSession uid code st).1, .ok s.id) := by
  intro st uid code s hs h0
  have hnil : st.participants.filter (fun p => p.session_id == s.id && p.user_id == uid)
      = [] := List.length_eq_zero.mp h0
  have hfind : st.participants.find?
      (fun p => p.session_id == s.id && p.user_id == uid) = none := by
    rw [List.find?_eq_none]
    intro p hp hmatch
    have hmem : p ∈ st.participants.filter
        (fun p => p.session_id == s.id && p.user_id == uid) :=
      List.mem_filter.mpr ⟨hp, hmatch⟩
    rw [hnil] at hmem
    exact absurd hmem (List.not_mem_nil p)
  constructor
  · simp [joinSession, hs, hfind, participantRowCount, List.filter_append, hnil]
  · simp only [joinSession, hs, hfind]
    rw [find?_append_none _ hfind]
    simp

/-- C5 witness: on the concrete store with only the instructor present,
alice joining twice via the lowercase code yields exactly one participant
row for alice, the second join returning the unchanged store. -/
theorem nls_c5_witness :
    participantRowCount (joinSession "alice" "ab12-cd34" store1).1 1 "alice" = 1
    ∧ joinSession "alice" "ab12-cd34" (joinSession "alice" "ab12-cd34" store1).1
      = ((joinSession "alice" "ab12-cd34" store1).1, .ok 1) :=
  nls_c5_idempotent_join store1 "alice" "ab12-cd34" wSession1 rfl rfl

/-- C6: join-by-code is an exact case-insensitive lookup: two codes with the
same uppercase form drive joinSession identically, and when the uppercase
code matches no session the operation fails with SessionNotFound and the
store is returned unchanged, so no participant or event row is written. -/
theorem nls_c6_code_lookup :
    (∀ (st : Store) (uid c1 c2 : String), toUpperCase c1 = toUpperCase c2 →
      joinSession uid c1 st = joinSession uid c2 st)
    ∧ (∀ (st : Store) (uid code : String),
        st.sessions.find? (fun s => s.session_code == toUpperCase code) = none →
        joinSession uid code st = (st, .error .SessionNotFound)) := by
  constructor
  · intro st uid c1 c2 h
    unfold joinSession
    rw [h]
  · intro st uid code h
    simp [joinSession, h]

/-- C6 witness: joining the concrete store with ab12-cd34 and with
AB12-CD34 is the same operation, and joining with the unknown code
zz99-zz99 fails with SessionNotFound leaving the store unchanged. -/
theorem nls_c6_witness :
    joinSession "alice" "ab12-cd34" store1 = joinSession "alice" "AB12-CD34" store1
    ∧ joinSession "alice" "zz99-zz99" store1 = (store1, .error .SessionNotFound) :=
  ⟨nls_c6_code_lookup.1 store1 "alice" "ab12-cd34" "AB12-CD34" rfl,
   nls_c6_code_lookup.2 store1 "alice" "zz99-zz99" rfl⟩

/-- C9: a re-join by an existing participant returns before any insert,
leaving the whole store (in particular the event log) unchanged; the
participant_joined event carrying the assigned role is written exactly on
the first join of a user to a session. -/
theorem nls_c9_rejoin_event_frame :
    ∀ (st : Store) (uid code : String) (s : Session),
      st.sessions.find? (fun x => x.session_code == toUpperCase code) = some s →
      ((st.participants.find?
          (fun p => p.session_id == s.id && p.user_id == uid)).isSome = true →
        joinSession uid code st = (st, .ok s.id))
      ∧ (st.participants.find?
          (fun p => p.session_id == s.id && p.user_id == uid) = none →
        (joinSession uid code st).1.events
          = st.events ++ [⟨s.id, some uid, "participant_joined",
              .roleData (assignRole ((st.participants.filter
                (fun p => p.session_id == s.id)).map (fun p => p.role)))⟩]) := by
  intro st uid code s hs
  constructor
  · intro hp
    obtain ⟨p, hp'⟩ := Option.isSome_iff_exists.mp hp
    simp [joinSession, hs, hp']
  · intro hp
    simp [joinSession, hs, hp]

/-- C9 witness: alice re-joining the concrete store she already joined
returns the unchanged store, and her first join had appended exactly one
participant_joined event carrying her assigned role. -/
theorem nls_c9_witness :
    joinSession "alice" "AB12-CD34" store2 = (store2, .ok 1)
    ∧ (joinSession "alice" "ab12-cd34" store1).1.events
      = store1.events ++ [⟨1, some "alice", "participant_joined",
          .roleData (assignRole ((store1.participants.filter
            (fun p => p.session_id == 1)).map (fun p => p.role)))⟩] :=
  ⟨(nls_c9_rejoin_event_frame store2 "alice" "AB12-CD34" wSession1 rfl).1 rfl,
   (nls_c9_rejoin_event_frame store1 "alice" "ab12-cd34" wSession1 rfl).2 rfl⟩

/-- C1: after any key-submission action, when the re-read KeyAuthorization
row has both operator auth timestamps present, the handler sets
system_state.authenticated to true, marks the row status complete, writes
current_step 3, and appends a dual_key_authentication_complete event. -/
theorem nls_c1_completion_check (uid : String) (role : SessionRole) (key : String)
    (now : Nat) (s : SimState) (r : KeyAuthorization)
    (hr : (submitKeyWrite uid role key now s).keyAuth = some r)
    (ha : r.operator_a_auth_at.isSome = true)
    (hb : r.operator_b_auth_at.isSome = true) :
    (handleKeySubmit uid role key now s).session.system_state.authenticated = true
    ∧ (handleKeySubmit uid role key now s).keyAuth = some { r with status := .complete }
    ∧ (handleKeySubmit uid role key now s).session.current_step = 3
    ∧ (handleKeySubmit uid role key now s).events
      = (submitKeyWrite uid role key now s).events
        ++ [⟨(submitKeyWrite uid role key now s).session.id, some uid,
             "dual_key_authentication_complete", .stepData 3⟩] := by
  unfold handleKeySubmit
  refine ⟨?_, ?_, ?_, ?_⟩ <;>
    simp [completionCheck, hr, ha, hb, updateSessionState, logEvent, applySSUpdate]

/-- C1 witness: on a concrete session where operator A authenticated at time
5, a submission by operator B at time 6 completes dual-key authentication:
authenticated true, row status complete, current_step 3, event appended. -/
theorem nls_c1_witness :
    wAfterAB.session.system_state.authenticated = true
    ∧ wAfterAB.keyAuth = some { recAB with status := .complete }
    ∧ wAfterAB.session.current_step = 3
    ∧ wAfterAB.events
      = (submitKeyWrite "ub" .operator_b "BBBBBBBB" 6 wAfterA).events
        ++ [⟨(submitKeyWrite "ub" .operator_b "BBBBBBBB" 6 wAfterA).session.id, some "ub",
             "dual_key_authentication_complete", .stepData 3⟩] :=
  nls_c1_completion_check "ub" .operator_b "BBBBBBBB" 6 wAfterA recAB rfl rfl rfl

/-- handleInitialize does not touch the key authorization row. -/
theorem keyAuth_handleInitialize (uid : String) (s : SimState) :
    (handleInitialize uid s).keyAuth = s.keyAuth := rfl

/-- handleDiagnostics does not touch the key authorization row. -/
theorem keyAuth_handleDiagnostics (uid : String) (passed : Bool) (s : SimState) :
    (handleDiagnostics uid passed s).keyAuth = s.keyAuth := by
  cases passed <;> rfl

/-- completionCheck is the identity when no key authorization row exists. -/
theorem completionCheck_none (uid : String) (s : SimState) (hk : s.keyAuth = none) :
    completionCheck uid s = s := by
  unfold completionCheck
  rw [hk]

/-- completionCheck is the identity when the row lacks a timestamp. -/
theorem completionCheck_not_both (uid : String) (s : SimState) (r : KeyAuthorization)
    (hk : s.keyAuth = some r)
    (hab : ¬(r.operator_a_auth_at.isSome = true ∧ r.operator_b_auth_at.isSome = true)) :
    completionCheck uid s = s := by
  unfold completionCheck
  rw [hk]
  exact if_neg hab

/-- When both timestamps are present, completionCheck marks the row
complete. -/
theorem completionCheck_both_keyAuth (uid : String) (s : SimState) (r : KeyAuthorization)
    (hk : s.keyAuth = some r) (ha : r.operator_a_auth_at.isSome = true)
    (hb : r.operator_b_auth_at.isSome = true) :
    (completionCheck uid s).keyAuth = some { r with status := .complete } := by
  simp [completionCheck, hk, ha, hb, logEvent, updateSessionState]

/-- The key-write phase by operator A on an existing row. -/
theorem submitKeyWrite_a_some (uid key : String) (now : Nat) (s : SimState)
    (r : KeyAuthorization) (hk : s.keyAuth = some r) (hlen : key.length = 8) :
    submitKeyWrite uid .operator_a key now s
      = logEvent uid "operator_a_authenticated" (.stepData 3)
          { s with keyAuth := some { r with
              operator_a_key := some key, operator_a_auth_at := some now } } := by
  unfold submitKeyWrite
  rw [if_pos ⟨rfl, hlen⟩, hk]

/-- The key-write phase by operator A when no row exists yet. -/
theorem submitKeyWrite_a_none (uid key : String) (now : Nat) (s : SimState)
    (hk : s.keyAuth = none) (hlen : key.length = 8) :
    submitKeyWrite uid .operator_a key now s
      = logEvent uid "operator_a_authenticated" (.stepData 3)
          { s with
            keyAuth := some
              { id := s.nextId, session_id := s.session.id,
                operator_a_key := some key, operator_b_key := none, command_key := none,
                operator_a_auth_at := some now, operator_b_auth_at := none,
                command_auth_at := none, status := .pending, created_at := now },
            nextId := s.nextId + 1 } := by
  unfold submitKeyWrite
  rw [if_pos ⟨rfl, hlen⟩, hk]

/-- The key-write phase by operator B on an existing row. -/
theorem submitKeyWrite_b_some (uid key : String) (now : Nat) (s : SimState)
    (r : KeyAuthorization) (hk : s.keyAuth = some r) (hlen : key.length = 8) :
    submitKeyWrite uid .operator_b key now s
      = logEvent uid "operator_b_authenticated" (.stepData 3)
          { s with keyAuth := some { r with
              operator_b_key := some key, operator_b_auth_at := some now } } := by
  unfold submitKeyWrite
  rw [if_neg (by simp), if_pos ⟨rfl, hlen⟩, hk]

/-- The key-write phase by operator B when no row exists yet. -/
theorem submitKeyWrite_b_none (uid key : String) (now : Nat) (s : SimState)
    (hk : s.keyAuth = none) (hlen : key.length = 8) :
    submitKeyWrite uid .operator_b key now s
      = logEvent uid "operator_b_authenticated" (.stepData 3)
          { s with
            keyAuth := some
              { id := s.nextId, session_id := s.session.id,
                operator_a_key := none, operator_b_key := some key, command_key := none,
                operator_a_auth_at := none, operator_b_auth_at := some now,
                command_auth_at := none, status := .pending, created_at := now },
            nextId := s.nextId + 1 } := by
  unfold submitKeyWrite
  rw [if_neg (by simp), if_pos ⟨rfl, hlen⟩, hk]

/-- The key-write phase is the identity for any other caller or key length. -/
theorem submitKeyWrite_skip (uid : String) (role : SessionRole) (key : String)
    (now : Nat) (s : SimState) (hA : ¬(role = .operator_a ∧ key.length = 8))
    (hB : ¬(role = .operator_b ∧ key.length = 8)) :
    submitKeyWrite uid role key now s = s := by
  unfold submitKeyWrite
  rw [if_neg hA, if_neg hB]

/-- The key-write phase never breaks the forward direction of the row
invariant: a row that is complete after the write has both timestamps. -/
theorem submitKeyWrite_complete_to_both (uid : String) (role : SessionRole)
    (key : String) (now : Nat) (s : SimState) (inv : KeyAuthInv s) :
    ∀ r, (submitKeyWrite uid role key now s).keyAuth = some r → r.status = .complete →
      r.operator_a_auth_at.isSome = true ∧ r.operator_b_auth_at.isSome = true := by
  intro r hr hc
  by_cases hA : role = .operator_a ∧ key.length = 8
  · obtain ⟨hrole, hlen⟩ := hA
    subst hrole
    cases hk : s.keyAuth with
    | none =>
      rw [submitKeyWrite_a_none uid key now s hk hlen] at hr
      simp [logEvent] at hr
      rw [← hr] at hc
      exact absurd hc (by simp)
    | some r0 =>
      rw [submitKeyWrite_a_some uid key now s r0 hk hlen] at hr
      simp [logEvent] at hr
      rw [← hr] at hc
      have h0 := (inv r0 hk).mp hc
      rw [← hr]
      exact ⟨rfl, h0.2⟩
  · by_cases hB : role = .operator_b ∧ key.length = 8
    · obtain ⟨hrole, hlen⟩ := hB
      subst hrole
      cases hk : s.keyAuth with
      | none =>
        rw [submitKeyWrite_b_none uid key now s hk hlen] at hr
        simp [logEvent] at hr
        rw [← hr] at hc
        exact absurd hc (by simp)
      | some r0 =>
        rw [submitKeyWrite_b_some uid key now s r0 hk hlen] at hr
        simp [logEvent] at hr
        rw [← hr] at hc
        have h0 := (inv r0 hk).mp hc
        rw [← hr]
        exact ⟨h0.1, rfl⟩
    · rw [submitKeyWrite_skip uid role key now s hA hB] at hr
      exact (inv r hr).mp hc

/-- After the completion check, the full iff invariant holds, assuming the
pre-state only satisfies the forward direction. -/
theorem completionCheck_inv (uid : String) (s : SimState)
    (hpre : ∀ r, s.keyAuth = some r → r.status = .complete →
      r.operator_a_auth_at.isSome = true ∧ r.operator_b_auth_at.isSome = true) :
    KeyAuthInv (completionCheck uid s) := by
  intro r' hr'
  cases hk : s.keyAuth with
  | none =>
    rw [completionCheck_none uid s hk, hk] at hr'
    exact absurd hr' (by simp)
  | some r =>
    by_cases hab : r.operator_a_auth_at.isSome = true ∧ r.operator_b_auth_at.isSome = true
    · rw [completionCheck_both_keyAuth uid s r hk hab.1 hab.2] at hr'
      simp only [Option.some.injEq] at hr'
      rw [← hr']
      simpa using hab
    · rw [completionCheck_not_both uid s r hk hab, hk] at hr'
      simp only [Option.some.injEq] at hr'
      rw [← hr']
      constructor
      · intro hc
        exact hpre r hk hc
      · intro hboth
        exact absurd hboth hab

/-- Every reachable state satisfies the key authorization row invariant. -/
theorem simReachable_keyAuthInv {s : SimState} (h : SimReachable s) : KeyAuthInv s := by
  induction h with
  | start sid code creator runId n0 =>
    intro r hr
    exact absurd hr (by simp [initialSimState])
  | step hr hstep ih =>
    cases hstep with
    | init uid s =>
      intro r h0
      rw [keyAuth_handleInitialize] at h0
      exact ih r h0
    | diag uid passed s =>
      intro r h0
      rw [keyAuth_handleDiagnostics] at h0
      exact ih r h0
    | key uid role key now s =>
      exact completionCheck_inv uid _
        (submitKeyWrite_complete_to_both uid role key now _ ih)

/-- The status rank never exceeds 2. -/
theorem rank_le_two (st : KeyAuthStatus) : st.rank ≤ 2 := by
  cases st <;> simp [KeyAuthStatus.rank]

/-- The key-write phase keeps the status of an existing row. -/
theorem submitKeyWrite_status (uid : String) (role : SessionRole) (key : String)
    (now : Nat) (s : SimState) (r : KeyAuthorization) (hr : s.keyAuth = some r) :
    ∃ r1, (submitKeyWrite uid role key now s).keyAuth = some r1 ∧ r1.status = r.status := by
  by_cases hA : role = .operator_a ∧ key.length = 8
  · obtain ⟨hrole, hlen⟩ := hA
    subst hrole
    rw [submitKeyWrite_a_some uid key now s r hr hlen]
    exact ⟨{ r with operator_a_key := some key, operator_a_auth_at := some now },
      by simp [logEvent], rfl⟩
  · by_cases hB : role = .operator_b ∧ key.length = 8
    · obtain ⟨hrole, hlen⟩ := hB
      subst hrole
      rw [submitKeyWrite_b_some uid key now s r hr hlen]
      exact ⟨{ r with operator_b_key := some key, operator_b_auth_at := some now },
        by simp [logEvent], rfl⟩
    · rw [submitKeyWrite_skip uid role key now s hA hB]
      exact ⟨r, hr, rfl⟩

/-- The completion check either keeps the row or only marks it complete. -/
theorem completionCheck_status (uid : String) (s : SimState) (r : KeyAuthorization)
    (hr : s.keyAuth = some r) :
    (completionCheck uid s).keyAuth = some r
    ∨ (completionCheck uid s).keyAuth = some { r with status := .complete } := by
  by_cases hab : r.operator_a_auth_at.isSome = true ∧ r.operator_b_auth_at.isSome = true
  · exact .inr (completionCheck_both_keyAuth uid s r hr hab.1 hab.2)
  · rw [completionCheck_not_both uid s r hr hab]
    exact .inl hr

/-- C3: in every state reachable by the handlers, in any order, a
KeyAuthorization row has status complete exactly when both operator auth
timestamps are non-null (so it is never complete with either timestamp
null), and no handler execution ever lowers the rank of the derived status
sequence pending, partial, complete. -/
theorem nls_c3_keyauth_invariant :
    (∀ s, SimReachable s → ∀ r, s.keyAuth = some r →
      (r.status = .complete ↔
        r.operator_a_auth_at.isSome = true ∧ r.operator_b_auth_at.isSome = true))
    ∧ (∀ s s', SimStep s s' → ∀ r r', s.keyAuth = some r → s'.keyAuth = some r' →
        r.status.rank ≤ r'.status.rank) := by
  constructor
  · intro s hs
    exact simReachable_keyAuthInv hs
  · intro s s' hstep r r' hr hr'
    cases hstep with
    | init uid s =>
      rw [keyAuth_handleInitialize, hr] at hr'
      cases hr'
      exact le_refl _
    | diag uid passed s =>
      rw [keyAuth_handleDiagnostics, hr] at hr'
      cases hr'
      exact le_refl _
    | key uid role key now s =>
      unfold handleKeySubmit at hr'
      obtain ⟨r1, hr1, hst1⟩ := submitKeyWrite_status uid role key now s r hr
      cases completionCheck_status uid _ r1 hr1 with
      | inl h =>
        rw [h] at hr'
        cases hr'
        rw [hst1]
      | inr h =>
        rw [h] at hr'
        cases hr'
        exact le_trans (rank_le_two _) (by simp [KeyAuthStatus.rank])

/-- C3 witness: the run in which operator A then operator B submit keys on a
fresh session is reachable; its key authorization row is complete and
indeed carries both timestamps, and the completing step did not lower the
status rank. -/
theorem nls_c3_witness :
    (({ recAB with status := .complete } : KeyAuthorization).status = .complete ↔
      ({ recAB with status := .complete } : KeyAuthorization).operator_a_auth_at.isSome = true
      ∧ ({ recAB with status := .complete } : KeyAuthorization).operator_b_auth_at.isSome = true)
    ∧ recA.status.rank ≤ ({ recAB with status := .complete } : KeyAuthorization).status.rank :=
  ⟨nls_c3_keyauth_invariant.1 wAfterAB
    (.step (.step (.start 1 "AB12-CD34" "creator" "RUN-1" 0)
      (.key "ua" .operator_a "AAAAAAAA" 5 wInit))
      (.key "ub" .operator_b "BBBBBBBB" 6 wAfterA))
    { recAB with status := .complete } rfl,
   nls_c3_keyauth_invariant.2 wAfterA wAfterAB
    (.key "ub" .operator_b "BBBBBBBB" 6 wAfterA)
    recA { recAB with status := .complete } rfl rfl⟩

/-- Fields of the session after handleInitialize. -/
theorem handleInitialize_fields (uid : String) (s : SimState) :
    (handleInitialize uid s).session.current_step = 1
    ∧ (handleInitialize uid s).session.system_state.initialized = true
    ∧ (handleInitialize uid s).session.system_state.diagnosticsPassed
        = s.session.system_state.diagnosticsPassed :=
  ⟨rfl, rfl, rfl⟩

/-- The key-write phase never touches the session row. -/
theorem submitKeyWrite_session (uid : String) (role : SessionRole) (key : String)
    (now : Nat) (s : SimState) :
    (submitKeyWrite uid role key now s).session = s.session := by
  by_cases hA : role = .operator_a ∧ key.length = 8
  · obtain ⟨hrole, hlen⟩ := hA
    subst hrole
    cases hk : s.keyAuth with
    | none =>
      rw [submitKeyWrite_a_none uid key now s hk hlen]
      rfl
    | some r =>
      rw [submitKeyWrite_a_some uid key now s r hk hlen]
      rfl
  · by_cases hB : role = .operator_b ∧ key.length = 8
    · obtain ⟨hrole, hlen⟩ := hB
      subst hrole
      cases hk : s.keyAuth with
      | none =>
        rw [submitKeyWrite_b_none uid key now s hk hlen]
        rfl
      | some r =>
        rw [submitKeyWrite_b_some uid key now s r hk hlen]
        rfl
    · rw [submitKeyWrite_skip uid role key now s hA hB]

/-- Session fields after a completion check that fires. -/
theorem completionCheck_both_session (uid : String) (s : SimState) (r : KeyAuthorization)
    (hk : s.keyAuth = some r) (ha : r.operator_a_auth_at.isSome = true)
    (hb : r.operator_b_auth_at.isSome = true) :
    (completionCheck uid s).session.current_step = 3
    ∧ (completionCheck uid s).session.system_state.initialized
        = s.session.system_state.initialized
    ∧ (completionCheck uid s).session.system_state.diagnosticsPassed
        = s.session.system_state.diagnosticsPassed := by
  refine ⟨?_, ?_, ?_⟩ <;>
    simp [completionCheck, hk, ha, hb, logEvent, updateSessionState, applySSUpdate]

/-- Session fields after any completion check: either the step is written to
3, or the session row is untouched; initialized and diagnosticsPassed are
never written. -/
theorem completionCheck_session (uid : String) (s : SimState) :
    ((completionCheck uid s).session.current_step = 3
      ∨ (completionCheck uid s).session = s.session)
    ∧ (completionCheck uid s).session.system_state.initialized
        = s.session.system_state.initialized
    ∧ (completionCheck uid s).session.system_state.diagnosticsPassed
        = s.session.system_state.diagnosticsPassed := by
  cases hk : s.keyAuth with
  | none =>
    rw [completionCheck_none uid s hk]
    exact ⟨.inr rfl, rfl, rfl⟩
  | some r =>
    by_cases hab : r.operator_a_auth_at.isSome = true ∧ r.operator_b_auth_at.isSome = true
    · obtain ⟨h1, h2, h3⟩ := completionCheck_both_session uid s r hk hab.1 hab.2
      exact ⟨.inl h1, h2, h3⟩
    · rw [completionCheck_not_both uid s r hk hab]
      exact ⟨.inr rfl, rfl, rfl⟩

/-- Session fields after a whole key-submission action. -/
theorem handleKeySubmit_session_fields (uid : String) (role : SessionRole)
    (key : String) (now : Nat) (s : SimState) :
    ((handleKeySubmit uid role key now s).session.current_step = 3
      ∨ (handleKeySubmit uid role key now s).session.current_step
          = s.session.current_step)
    ∧ (handleKeySubmit uid role key now s).session.system_state.initialized
        = s.session.system_state.initialized
    ∧ (handleKeySubmit uid role key now s).session.system_state.diagnosticsPassed
        = s.session.system_state.diagnosticsPassed := by
  unfold handleKeySubmit
  have hmid := submitKeyWrite_session uid role key now s
  obtain ⟨h1, h2, h3⟩ := completionCheck_session uid (submitKeyWrite uid role key now s)
  refine ⟨?_, by rw [h2, hmid], by rw [h3, hmid]⟩
  cases h1 with
  | inl h => exact .inl h
  | inr h =>
    right
    rw [h, hmid]

/-- A freshly created session satisfies the gated invariant. -/
theorem stepInv_initial (sid : Nat) (code creator runId : String) (n0 : Nat) :
    StepInv (initialSimState sid code creator runId n0) :=
  ⟨fun _ => ⟨rfl, rfl⟩, fun _ => ⟨Nat.zero_le 1, rfl⟩, Nat.zero_le 3⟩

/-- Every gated handler execution preserves the invariant and never lowers
current_step. -/
theorem gatedStep_inv_mono {s s' : SimState} (inv : StepInv s) (hstep : GatedStep s s') :
    StepInv s' ∧ s.session.current_step ≤ s'.session.current_step := by
  obtain ⟨inv1, inv2, inv3⟩ := inv
  cases hstep with
  | init uid s hinit =>
    obtain ⟨hstep0, hdiag⟩ := inv1 hinit
    obtain ⟨hcs, hin, hdp⟩ := handleInitialize_fields uid s
    refine ⟨⟨?_, ?_, ?_⟩, ?_⟩
    · intro h
      rw [hin] at h
      exact absurd h (by simp)
    · intro h
      rw [hdp] at h
      constructor
      · omega
      · rw [keyAuth_handleInitialize]
        exact (inv2 h).2
    · omega
    · omega
  | diag uid passed s hinit hdiag =>
    obtain ⟨hle, hka⟩ := inv2 hdiag
    cases passed
    · have hcs : (handleDiagnostics uid false s).session.current_step
          = s.session.current_step := rfl
      have hin : (handleDiagnostics uid false s).session.system_state.initialized
          = s.session.system_state.initialized := rfl
      have hdp : (handleDiagnostics uid false s).session.system_state.diagnosticsPassed
          = false := rfl
      have hky : (handleDiagnostics uid false s).keyAuth = s.keyAuth := rfl
      refine ⟨⟨?_, ?_, ?_⟩, ?_⟩
      · intro h
        rw [hin, hinit] at h
        exact absurd h (by simp)
      · intro _
        rw [hcs, hky]
        exact ⟨hle, hka⟩
      · omega
      · omega
    · have hcs : (handleDiagnostics uid true s).session.current_step = 2 := rfl
      have hin : (handleDiagnostics uid true s).session.system_state.initialized
          = s.session.system_state.initialized := rfl
      have hdp : (handleDiagnostics uid true s).session.system_state.diagnosticsPassed
          = true := rfl
      refine ⟨⟨?_, ?_, ?_⟩, ?_⟩
      · intro h
        rw [hin, hinit] at h
        exact absurd h (by simp)
      · intro h
        rw [hdp] at h
        exact absurd h (by simp)
      · omega
      · omega
  | key uid role key now s hdiag =>
    obtain ⟨hor, hin, hdp⟩ := handleKeySubmit_session_fields uid role key now s
    refine ⟨⟨?_, ?_, ?_⟩, ?_⟩
    · intro h
      rw [hin] at h
      obtain ⟨_, hdf⟩ := inv1 h
      rw [hdiag] at hdf
      exact absurd hdf (by simp)
    · intro h
      rw [hdp, hdiag] at h
      exact absurd h (by simp)
    · cases hor with
      | inl h => omega
      | inr h => omega
    · cases hor with
      | inl h => omega
      | inr h => omega

/-- Every gated-reachable state satisfies the invariant. -/
theorem gatedReachable_stepInv {s : SimState} (h : GatedReachable s) : StepInv s := by
  induction h with
  | start sid code creator runId n0 => exact stepInv_initial sid code creator runId n0
  | step hr hstep ih => exact (gatedStep_inv_mono ih hstep).1

/-- C2 counterexample: the claim quantifies over operation sequences applied
in any order, and the handlers carry no step guards of their own, so on a
fresh session both operators can submit keys first (driving current_step to
3) and a subsequent initialize action then writes current_step 1, a smaller
value than the session already held. -/
theorem nls_c2_counterexample :
    wAfterAB.session.current_step = 3
    ∧ (handleInitialize "creator" wAfterAB).session.current_step = 1
    ∧ ¬ (wAfterAB.session.current_step
          ≤ (handleInitialize "creator" wAfterAB).session.current_step) :=
  ⟨rfl, rfl, by decide⟩

/-- C2 amended: under the UI enablement conditions under which the reference
behavior exposes the operations (initialize only while not initialized,
diagnostics only while initialized and not passed, key submission only while
diagnostics passed), current_step is non-decreasing across the observed
history: no gated operation writes a current_step smaller than the one the
session already holds. -/
theorem nls_c2_gated_monotone :
    ∀ s s', GatedReachable s → GatedStep s s' →
      s.session.current_step ≤ s'.session.current_step := by
  intro s s' hr hstep
  exact (gatedStep_inv_mono (gatedReachable_stepInv hr) hstep).2

/-- C2 witness: on a fresh session the gated initialize action moves
current_step from 0 to 1, a non-decrease. -/
theorem nls_c2_witness :
    wInit.session.current_step ≤ (handleInitialize "creator" wInit).session.current_step :=
  nls_c2_gated_monotone wInit (handleInitialize "creator" wInit)
    (.start 1 "AB12-CD34" "creator" "RUN-1" 0) (.init "creator" wInit rfl)

end NLS
